import Mathlib

/-
A shallow embedding of the Apprentice language pipeline
(src/scanner.rs, src/token.rs, src/parser.rs, src/interpreter.rs, src/main.rs)
and proofs about the claims of the specification.

Modelling choices:
* Rust f64 numbers are modelled as rationals; f64::EPSILON is the exact
  rational 2^(-52).
* Rust panics (index out of bounds, Option::unwrap on None, Result::unwrap
  on Err, todo!, assert!) are modelled as an explicit `panic` outcome in
  every result type, so that a process abort is distinguishable from an
  error returned as a value.
* HashMap<String, Option<Value>> is modelled as an association list with
  insert-replaces-existing-key semantics.
* The repository declares two token-kind enums (scanner.rs's TokenType with
  Int/Float literal kinds and token.rs's TokenType with a Number literal
  kind) that are conflated across a module seam which does not type-check
  as committed; the embedding uses a single TokenType inductive carrying
  all the variants of both, and a single token literal type with the
  variants of both.  Every claim exercises only one side of the seam.
-/

namespace Apprentice

/-- Token kinds: union of scanner.rs `TokenType` (`int`, `float` literal
kinds) and token.rs `TokenType` (`number` literal kind); all other
variants coincide between the two files. -/
inductive TokenType where
  | leftParen
  | rightParen
  | leftBracket
  | rightBracket
  | leftBrace
  | rightBrace
  | comma
  | dot
  | minus
  | plus
  | semicolon
  | slash
  | star
  | bang
  | bangEqual
  | equal
  | equalEqual
  | greater
  | greaterEqual
  | less
  | lessEqual
  | identifier
  | string
  | int
  | float
  | number
  | kwAnd
  | kwClass
  | kwElse
  | kwFalse
  | kwFor
  | kwFunc
  | kwIf
  | kwNull
  | kwOr
  | kwPrint
  | kwReturn
  | kwThis
  | kwTrue
  | kwVar
  | kwWhile
  | eof
deriving DecidableEq, Repr

/-- Token literals: union of scanner.rs `Literal` (`int`/`float`) and
token.rs `Literal` (`num`); `identifier` and `str` coincide. -/
inductive TokLiteral where
  | identifier (s : String)
  | str (s : String)
  | int (n : Nat)
  | float (q : ℚ)
  | num (n : Nat)
deriving DecidableEq, Repr

/-- token.rs / scanner.rs `Token`. -/
structure Token where
  tokenType : TokenType
  lexeme : List Char
  literal : Option TokLiteral
  line : Nat
  column : Int
deriving DecidableEq, Repr

/-- parser.rs `exprstmt::Symbol`. -/
structure Symbol where
  name : String
  line : Nat
  column : Int
deriving DecidableEq, Repr

/-- parser.rs `exprstmt::UniOpType`. -/
inductive UniOpType where
  | minus
  | bang
deriving DecidableEq, Repr

/-- parser.rs `exprstmt::UnaryOp`. -/
structure UnaryOp where
  uType : UniOpType
  line : Nat
  column : Int
deriving DecidableEq, Repr

/-- parser.rs `exprstmt::BinOpType`. -/
inductive BinOpType where
  | equalEqual
  | notEqual
  | less
  | lessEqual
  | greater
  | greaterEqual
  | add
  | sub
  | mult
  | div
deriving DecidableEq, Repr

/-- parser.rs `exprstmt::BinaryOp`. -/
structure BinaryOp where
  bType : BinOpType
  line : Nat
  column : Int
deriving DecidableEq, Repr

/-- parser.rs `exprstmt::Literal`; `number` carries a rational modelling
the Rust f64. -/
inductive Literal where
  | number (n : ℚ)
  | str (s : String)
  | true
  | false
  | null
deriving DecidableEq, Repr

/-- parser.rs `exprstmt::Expr`; the source's `Expr::Variable` is `var`
here because `variable` is a Lean keyword. -/
inductive Expr where
  | literal (l : Literal)
  | unary (op : UnaryOp) (e : Expr)
  | binary (l : Expr) (op : BinaryOp) (r : Expr)
  | ternary (a b c : Expr)
  | assignment (s : Symbol) (e : Expr)
  | grouping (e : Expr)
  | var (s : Symbol)
deriving DecidableEq, Repr

/-- parser.rs `exprstmt::Stmt`. -/
inductive Stmt where
  | expression (e : Expr)
  | print (e : Expr)
  | varDeclaration (s : Symbol) (initializer : Option Expr)
deriving DecidableEq, Repr

/-- interpreter.rs `environment::Value`; f64 modelled as a rational. -/
inductive Value where
  | number (n : ℚ)
  | string (s : String)
  | bool (b : Bool)
  | null
deriving DecidableEq, Repr

/-- Result of a pure runtime computation: `Ok`, an error value
(`Result::Err` in the source), or a Rust panic (process abort). -/
inductive RRes (α : Type) where
  | ok (a : α)
  | err (e : String)
  | panic (m : String)
deriving DecidableEq, Repr

/-- Association-list insert with HashMap semantics: replaces the value of
an existing key, otherwise appends the new binding. -/
def envInsert (l : List (String × Option Value)) (k : String) (v : Option Value) :
    List (String × Option Value) :=
  match l with
  | [] => [(k, v)]
  | (k', v') :: rest => if k' = k then (k, v) :: rest else (k', v') :: envInsert rest k v

/-- Association-list lookup (HashMap `get` / `contains_key`). -/
def envLookup (l : List (String × Option Value)) (k : String) :
    Option (Option Value) :=
  match l with
  | [] => none
  | (k', v') :: rest => if k' = k then some v' else envLookup rest k

/-- interpreter.rs `environment::Environment`: a map from variable name to
an optional runtime value. -/
structure Environment where
  values : List (String × Option Value)
deriving DecidableEq, Repr

/-- `Environment::define`: insert the binding, replacing any existing one. -/
def Environment.define (env : Environment) (sym : Symbol) (value : Option Value) :
    Environment :=
  ⟨envInsert env.values sym.name value⟩

/-- `HashMap::contains_key` on the environment. -/
def Environment.containsKey (env : Environment) (name : String) : Bool :=
  (envLookup env.values name).isSome

/-- `Environment::assign`: re-define only if the name is already present,
else return the undefined-variable error. -/
def Environment.assign (env : Environment) (sym : Symbol) (val : Value) :
    Except String Environment :=
  if env.containsKey sym.name then
    .ok (env.define sym (some val))
  else
    .error "attempted to assign to an undefined variable"

/-- `Environment::get`: if the name is present, `self.values[name].clone().unwrap()`
(which panics when the stored option is `None`, i.e. declared without an
initializer and never assigned); otherwise the undefined-variable error. -/
def Environment.get (env : Environment) (name : String) : RRes Value :=
  match envLookup env.values name with
  | some (some v) => .ok v
  | some none => .panic "called Option::unwrap on a None value"
  | none => .err ("Undefined variable " ++ name)

/-- f64::EPSILON as an exact rational, 2^(-52). -/
def f64Epsilon : ℚ := 1 / 2 ^ 52

/-- interpreter.rs `Interpreter::equals`: tolerance equality for numbers,
exact equality for strings and booleans, null equals null, and any
cross-type pair is unequal. -/
def Interpreter.equals (left right : Value) : Bool :=
  match left, right with
  | .number n1, .number n2 => decide (|n1 - n2| < f64Epsilon)
  | .string s1, .string s2 => s1 == s2
  | .bool b1, .bool b2 => b1 == b2
  | .null, .null => Bool.true
  | _, _ => Bool.false

/-- interpreter.rs `Interpreter::interpret_literal`. -/
def interpretLiteral (lit : Literal) : Value :=
  match lit with
  | .number n => .number n
  | .str s => .string s
  | .true => .bool Bool.true
  | .false => .bool Bool.false
  | .null => .null

/-- The operand-type dispatch of interpreter.rs `Interpreter::interpret_unary`,
after the operand has been evaluated. -/
def interpretUnaryOp (op : UnaryOp) (val : Value) : RRes Value :=
  match op.uType, val with
  | .minus, .number n => .ok (.number (-n))
  | .bang, .bool b => .ok (.bool (!b))
  | .minus, _ => .err "NaN"
  | .bang, _ => .err "Not a boolean"

/-- The operator-and-operand-type dispatch of interpreter.rs
`Interpreter::interpret_binary`, after both operands have been evaluated.
The final catch-all arm of the source is `Err(todo!())`, whose `todo!()`
panics before the `Err` is built. -/
def interpretBinaryOp (l : Value) (op : BinaryOp) (r : Value) : RRes Value :=
  match l, op.bType, r with
  | .number a, .less, .number b => .ok (.bool (decide (a < b)))
  | .number a, .lessEqual, .number b => .ok (.bool (decide (a ≤ b)))
  | .number a, .greater, .number b => .ok (.bool (decide (b < a)))
  | .number a, .greaterEqual, .number b => .ok (.bool (decide (b ≤ a)))
  | .number a, .sub, .number b => .ok (.number (a - b))
  | .number a, .add, .number b => .ok (.number (a + b))
  | .number a, .mult, .number b => .ok (.number (a * b))
  | .number a, .div, .number b =>
      if b = 0 then
        .err ("[line: " ++ toString op.line ++ " Column: " ++ toString op.column ++
          "] Can\x27t divide by zero")
      else
        .ok (.number (a / b))
  | .string a, .add, .string b => .ok (.string (a ++ b))
  | _, .equalEqual, _ => .ok (.bool (Interpreter.equals l r))
  | _, .notEqual, _ => .ok (.bool (Interpreter.equals l r))
  | _, _, _ => .panic "not yet implemented"

/-- Result of evaluating an expression, carrying the environment left
behind by the in-place mutation of `self.env` (also on the error path). -/
inductive IRes (α : Type) where
  | ok (a : α) (env : Environment)
  | err (e : String) (env : Environment)
  | panic (m : String)
deriving DecidableEq, Repr

/-- interpreter.rs `Interpreter::interpret_expr`. -/
def Interpreter.interpretExpr (env : Environment) : Expr → IRes Value
  | .literal lit => .ok (interpretLiteral lit) env
  | .grouping e => Interpreter.interpretExpr env e
  | .unary op e =>
    match Interpreter.interpretExpr env e with
    | .panic m => .panic m
    | .err msg env' => .err msg env'
    | .ok v env' =>
      match interpretUnaryOp op v with
      | .ok v' => .ok v' env'
      | .err msg => .err msg env'
      | .panic m => .panic m
  | .binary l op r =>
    match Interpreter.interpretExpr env l with
    | .panic m => .panic m
    | .err msg env' => .err msg env'
    | .ok lv env1 =>
      match Interpreter.interpretExpr env1 r with
      | .panic m => .panic m
      | .err msg env' => .err msg env'
      | .ok rv env2 =>
        match interpretBinaryOp lv op rv with
        | .ok v => .ok v env2
        | .err msg => .err msg env2
        | .panic m => .panic m
  | .ternary _ _ _ => .panic "not yet implemented"
  | .assignment sym e =>
    match Interpreter.interpretExpr env e with
    | .panic m => .panic m
    | .err msg env' => .err msg env'
    | .ok v env1 =>
      match env1.assign sym v with
      | .ok env2 => .ok v env2
      | .error msg => .err msg env1
  | .var sym =>
    match env.get sym.name with
    | .ok v => .ok v env
    | .err msg => .err msg env
    | .panic m => .panic m

/-- Result of executing statements: final environment and the values the
`print` statements emitted in order, or an error, or a panic. -/
inductive XRes where
  | ok (env : Environment) (output : List Value)
  | err (e : String) (env : Environment) (output : List Value)
  | panic (m : String)
deriving DecidableEq, Repr

/-- interpreter.rs `Interpreter::execute`. -/
def Interpreter.execute (env : Environment) (output : List Value) :
    Stmt → XRes
  | .print e =>
    match Interpreter.interpretExpr env e with
    | .ok v env' => .ok env' (output ++ [v])
    | .err msg env' => .err msg env' output
    | .panic m => .panic m
  | .expression e =>
    match Interpreter.interpretExpr env e with
    | .ok _ env' => .ok env' output
    | .err msg env' => .err msg env' output
    | .panic m => .panic m
  | .varDeclaration s initializer =>
    match initializer with
    | some e =>
      match Interpreter.interpretExpr env e with
      | .ok v env' => .ok (env'.define s (some v)) output
      | .err msg env' => .err msg env' output
      | .panic m => .panic m
    | none => .ok (env.define s none) output

/-- interpreter.rs `Interpreter::interpret`: execute the statements in
order, stopping at the first error. -/
def Interpreter.interpretStmts (env : Environment) (output : List Value) :
    List Stmt → XRes
  | [] => .ok env output
  | stmt :: rest =>
    match Interpreter.execute env output stmt with
    | .ok env' output' => Interpreter.interpretStmts env' output' rest
    | .err msg env' output' => .err msg env' output'
    | .panic m => .panic m

/-- interpreter.rs free function `interpret`: fresh default environment. -/
def interpret (stmts : List Stmt) : XRes :=
  Interpreter.interpretStmts ⟨[]⟩ [] stmts

/-- A computation that either succeeds or hits a Rust panic. -/
inductive PanicOr (α : Type) where
  | ok (a : α)
  | panic (m : String)
deriving DecidableEq, Repr

/-- scanner.rs `Error` (a scan error value). -/
structure ScanError where
  what : String
  line : Nat
  column : Int
deriving DecidableEq, Repr

/-- scanner.rs `Scanner` state (the keyword table of the source is never
consulted by `scan_token` and carries no state, so it is omitted). -/
structure Scanner where
  source : List Char
  tokens : List Token
  err : Option ScanError
  start : Nat
  current : Nat
  line : Nat
  column : Int
deriving DecidableEq, Repr

/-- `Scanner::is_at_end`. -/
def Scanner.isAtEnd (s : Scanner) : Bool :=
  s.source.length ≤ s.current

/-- `Scanner::advance`: move the cursor and return `source[current - 1]`;
panics (index out of bounds) when the cursor has moved past the input. -/
def Scanner.advance (s : Scanner) : PanicOr (Char × Scanner) :=
  let s' : Scanner := { s with current := s.current + 1, column := s.column + 1 }
  match s'.source.get? (s'.current - 1) with
  | some c => .ok (c, s')
  | none => .panic "index out of bounds"

/-- `Scanner::matches`: NOTE the source returns `true` when already at the
end of the input, before looking at any character. -/
def Scanner.matches (s : Scanner) (c : Char) : Bool × Scanner :=
  if s.isAtEnd then (Bool.true, s)
  else if s.source.getD s.current (Char.ofNat 0) ≠ c then (Bool.false, s)
  else (Bool.true, { s with current := s.current + 1, column := s.column + 1 })

/-- `Scanner::peek`: the next character, or NUL at the end. -/
def Scanner.peek (s : Scanner) : Char :=
  if s.isAtEnd then Char.ofNat 0 else s.source.getD s.current (Char.ofNat 0)

/-- `Scanner::peek_next`. -/
def Scanner.peekNext (s : Scanner) : Char :=
  if s.source.length ≤ s.current + 1 then Char.ofNat 0
  else s.source.getD (s.current + 1) (Char.ofNat 0)

/-- The slice `source[a..b]` as a list. -/
def sliceList (src : List Char) (a b : Nat) : List Char :=
  (src.drop a).take (b - a)

/-- `Scanner::add_token_literal`: push a token whose lexeme is
`source[start..current]`. -/
def Scanner.addTokenLiteral (s : Scanner) (tokenType : TokenType)
    (literal : Option TokLiteral) : Scanner :=
  { s with tokens := s.tokens ++
      [⟨tokenType, sliceList s.source s.start s.current, literal, s.line, s.column⟩] }

/-- `Scanner::add_token`. -/
def Scanner.addToken (s : Scanner) (tokenType : TokenType) : Scanner :=
  s.addTokenLiteral tokenType none

/-- The while loop of `Scanner::string`: consume until a closing quote or
the end of input; a backslash hits the `todo!()` escape-sequence arm. -/
def Scanner.stringLoop : Nat → Scanner → PanicOr Scanner
  | 0, _ => .panic "out of fuel"
  | fuel + 1, s =>
    if s.peek ≠ '\"' ∧ ¬ s.isAtEnd then
      if s.peek = '\\' then .panic "not yet implemented"
      else
        let s1 : Scanner := if s.peek = '\n' then { s with line := s.line + 1 } else s
        match s1.advance with
        | .ok (_, s2) => Scanner.stringLoop fuel s2
        | .panic m => .panic m
    else .ok s

/-- `Scanner::string`: after the loop, an unterminated string records the
scan error, but the following `assert!(self.peek() == char quote)` then
panics; otherwise the closing quote is consumed and a String token with
the text between the quotes is pushed. -/
def Scanner.string (fuel : Nat) (s : Scanner) : PanicOr Scanner :=
  match s.stringLoop fuel with
  | .panic m => .panic m
  | .ok s1 =>
    let s2 : Scanner :=
      if s1.isAtEnd then
        { s1 with err := some ⟨"String needs to be closed", s1.line, s1.column⟩ }
      else s1
    if s2.peek = '\"' then
      match s2.advance with
      | .ok (_, s3) =>
        .ok (s3.addTokenLiteral .string
          (some (.str (String.mk (sliceList s3.source (s3.start + 1) (s3.current - 1))))))
      | .panic m => .panic m
    else .panic "assertion failed"

/-- A maximal run of ASCII digits (`while self.peek().is_ascii_digit()`). -/
def Scanner.digitsLoop : Nat → Scanner → PanicOr Scanner
  | 0, _ => .panic "out of fuel"
  | fuel + 1, s =>
    if s.peek.isDigit then
      match s.advance with
      | .ok (_, s1) => Scanner.digitsLoop fuel s1
      | .panic m => .panic m
    else .ok s

/-- The numeric value of a run of ASCII digits. -/
def digitsToNat (cs : List Char) : Nat :=
  cs.foldl (fun a c => a * 10 + (c.toNat - 48)) 0

/-- Models Rust `str::parse::<f64>` on a lexeme of the form
`digits.digits`, exactly, as a rational. -/
def floatOfDigits (cs : List Char) : ℚ :=
  let intPart := cs.takeWhile (fun c => c ≠ '.')
  let fracPart := (cs.dropWhile (fun c => c ≠ '.')).drop 1
  (digitsToNat intPart : ℚ) + (digitsToNat fracPart : ℚ) / (10 ^ fracPart.length : ℚ)

/-- `Scanner::number`. -/
def Scanner.number (fuel : Nat) (s : Scanner) : PanicOr Scanner :=
  match s.digitsLoop fuel with
  | .panic m => .panic m
  | .ok s1 =>
    if s1.peek = '.' ∧ s1.peekNext.isDigit then
      match s1.advance with
      | .panic m => .panic m
      | .ok (_, s2) =>
        match s2.digitsLoop fuel with
        | .panic m => .panic m
        | .ok s3 =>
          .ok (s3.addTokenLiteral .float
            (some (.float (floatOfDigits (sliceList s3.source s3.start s3.current)))))
    else
      .ok (s1.addTokenLiteral .int
        (some (.int (digitsToNat (sliceList s1.source s1.start s1.current)))))

/-- The comment loop of `Scanner::scan_token`: consume up to the next
newline; NOTE there is no end-of-input check, so a comment that reaches
the end of the input panics in `advance`. -/
def Scanner.commentLoop : Nat → Scanner → PanicOr Scanner
  | 0, _ => .panic "out of fuel"
  | fuel + 1, s =>
    if s.peek ≠ '\n' then
      match s.advance with
      | .ok (_, s1) => Scanner.commentLoop fuel s1
      | .panic m => .panic m
    else .ok s

/-- `Scanner::scan_token`.  NOTE: the source has no identifier/keyword
arm; any character that is not listed and not an ASCII digit records the
invalid-character scan error. -/
def Scanner.scanToken (fuel : Nat) (s0 : Scanner) : PanicOr Scanner :=
  match s0.advance with
  | .panic m => .panic m
  | .ok (c, s) =>
    if c = '(' then .ok (s.addToken .leftParen)
    else if c = ')' then .ok (s.addToken .rightParen)
    else if c = Char.ofNat 123 then .ok (s.addToken .leftBrace)
    else if c = Char.ofNat 125 then .ok (s.addToken .rightBrace)
    else if c = '[' then .ok (s.addToken .leftBracket)
    else if c = ']' then .ok (s.addToken .rightBracket)
    else if c = ',' then .ok (s.addToken .comma)
    else if c = '.' then .ok (s.addToken .dot)
    else if c = '-' then .ok (s.addToken .minus)
    else if c = '+' then .ok (s.addToken .plus)
    else if c = ';' then .ok (s.addToken .semicolon)
    else if c = '*' then .ok (s.addToken .star)
    else if c = '!' then
      let (m, s1) := s.matches '='
      .ok (s1.addToken (if m then .bangEqual else .bang))
    else if c = '=' then
      let (m, s1) := s.matches '='
      .ok (s1.addToken (if m then .equalEqual else .equal))
    else if c = '<' then
      let (m, s1) := s.matches '='
      .ok (s1.addToken (if m then .lessEqual else .less))
    else if c = '>' then
      let (m, s1) := s.matches '='
      .ok (s1.addToken (if m then .greaterEqual else .greater))
    else if c = '/' then
      let (m, s1) := s.matches '/'
      if m then s1.commentLoop fuel
      else .ok (s1.addToken .slash)
    else if c = ' ' ∨ c = '\r' ∨ c = '\t' then .ok s
    else if c = '\n' then .ok { s with line := s.line + 1, column := 0 }
    else if c = '\"' then s.string fuel
    else if c.isDigit then s.number fuel
    else
      let e : ScanError := ⟨"Invalid character found: " ++ String.mk [c], s.line, s.column⟩
      .ok { s with err := some e }

/-- The while loop of `Scanner::scan_tokens`: set `start` to the cursor
and scan one token, until the end of the input. -/
def Scanner.scanLoop : Nat → Scanner → PanicOr Scanner
  | 0, _ => .panic "out of fuel"
  | fuel + 1, s =>
    if ¬ s.isAtEnd then
      match Scanner.scanToken fuel { s with start := s.current } with
      | .ok s1 => Scanner.scanLoop fuel s1
      | .panic m => .panic m
    else .ok s

/-- Outcome of scanner.rs `scan`: the token vector, a scan error value, or
a panic. -/
inductive ScanResult where
  | ok (tokens : List Token)
  | error (e : ScanError)
  | panic (m : String)
deriving DecidableEq, Repr

/-- scanner.rs free function `scan` composed with `Scanner::scan_tokens`:
scan the whole input, append the Eof token, and report the recorded scan
error if any.  The fuel is an upper bound on the loop iterations, which
each consume at least one input character. -/
def scan (input : String) : ScanResult :=
  let fuel := input.length + 2
  let s0 : Scanner :=
    ⟨input.toList, [], none, 0, 0, 1, -1⟩
  match Scanner.scanLoop fuel s0 with
  | .panic m => .panic m
  | .ok s =>
    let s1 : Scanner := { s with tokens := s.tokens ++ [⟨.eof, [], none, s.line, s.column⟩] }
    match s1.err with
    | some e => .error e
    | none => .ok s1.tokens

/-- parser.rs `SyntaxError`. -/
inductive SyntaxError where
  | unexpectedToken (token : Token)
  | tokenMismatch (expected : TokenType) (found : Token) (maybeErr : Option String)
  | invalidTokenInBinaryOp (tokenType : TokenType) (line : Nat) (column : Int)
  | invalidTokenInUnaryOp (tokenType : TokenType) (line : Nat) (column : Int)
  | expectedExpression (tokenType : TokenType) (line : Nat) (column : Int)
  | invalidAssignment (line : Nat) (column : Int)
deriving DecidableEq, Repr

/-- parser.rs `Parser` state. -/
structure Parser where
  tokens : List Token
  current : Nat
deriving DecidableEq, Repr

/-- Result of a parser step, carrying the parser state left behind by the
in-place mutation of `self` (also on the error path). -/
inductive PRes (α : Type) where
  | ok (a : α) (p : Parser)
  | err (e : SyntaxError) (p : Parser)
  | panic (m : String)
deriving DecidableEq, Repr

/-- `Parser::peek`: `self.tokens[self.current]`, panicking when the index
is past the end of the vector. -/
def Parser.peek (p : Parser) : PanicOr Token :=
  match p.tokens.get? p.current with
  | some t => .ok t
  | none => .panic "index out of bounds"

/-- `Parser::previous`: `self.tokens[self.current - 1]`; `current = 0`
underflows the usize subtraction. -/
def Parser.previous (p : Parser) : PanicOr Token :=
  if p.current = 0 then .panic "attempt to subtract with overflow"
  else
    match p.tokens.get? (p.current - 1) with
    | some t => .ok t
    | none => .panic "index out of bounds"

/-- `Parser::is_at_end`: whether the peeked token is Eof. -/
def Parser.isAtEnd (p : Parser) : PanicOr Bool :=
  match p.peek with
  | .ok t => .ok (t.tokenType == .eof)
  | .panic m => .panic m

/-- `Parser::check`. -/
def Parser.check (p : Parser) (t : TokenType) : PanicOr Bool :=
  match p.isAtEnd with
  | .panic m => .panic m
  | .ok Bool.true => .ok Bool.false
  | .ok Bool.false =>
    match p.peek with
    | .ok tok => .ok (tok.tokenType == t)
    | .panic m => .panic m

/-- `Parser::advance`. -/
def Parser.advance (p : Parser) : PRes Token :=
  match p.isAtEnd with
  | .panic m => .panic m
  | .ok b =>
    let p' : Parser := if b then p else { p with current := p.current + 1 }
    match p'.previous with
    | .ok t => .ok t p'
    | .panic m => .panic m

/-- `Parser::matches`. -/
def Parser.matches (p : Parser) (t : TokenType) : PRes Bool :=
  match p.check t with
  | .panic m => .panic m
  | .ok Bool.true =>
    match p.advance with
    | .ok _ p' => .ok Bool.true p'
    | .err e p' => .err e p'
    | .panic m => .panic m
  | .ok Bool.false => .ok Bool.false p

/-- `Parser::match_one_of`. -/
def Parser.matchOneOf (p : Parser) : List TokenType → PRes Bool
  | [] => .ok Bool.false p
  | t :: ts =>
    match p.matches t with
    | .ok Bool.true p' => .ok Bool.true p'
    | .ok Bool.false p' => p'.matchOneOf ts
    | .err e p' => .err e p'
    | .panic m => .panic m

/-- `Parser::consume`: advance past the expected token kind, or return a
`TokenMismatch` without advancing. -/
def Parser.consume (p : Parser) (t : TokenType) (message : String) : PRes Token :=
  match p.check t with
  | .panic m => .panic m
  | .ok Bool.true => p.advance
  | .ok Bool.false =>
    match p.peek with
    | .ok tok => .err (.tokenMismatch t tok (some message)) p
    | .panic m => .panic m

/-- `Parser::op_token_to_binop`. -/
def opTokenToBinop (op : Token) : Except SyntaxError BinaryOp :=
  match op.tokenType with
  | .equalEqual => .ok ⟨.equalEqual, op.line, op.column⟩
  | .bangEqual => .ok ⟨.notEqual, op.line, op.column⟩
  | .less => .ok ⟨.less, op.line, op.column⟩
  | .lessEqual => .ok ⟨.lessEqual, op.line, op.column⟩
  | .greater => .ok ⟨.greater, op.line, op.column⟩
  | .greaterEqual => .ok ⟨.greaterEqual, op.line, op.column⟩
  | .plus => .ok ⟨.add, op.line, op.column⟩
  | .minus => .ok ⟨.sub, op.line, op.column⟩
  | .star => .ok ⟨.mult, op.line, op.column⟩
  | .slash => .ok ⟨.div, op.line, op.column⟩
  | t => .error (.invalidTokenInBinaryOp t op.line op.column)

/-- `Parser::op_token_to_uniop`. -/
def opTokenToUniop (op : Token) : Except SyntaxError UnaryOp :=
  match op.tokenType with
  | .bang => .ok ⟨.bang, op.line, op.column⟩
  | .minus => .ok ⟨.minus, op.line, op.column⟩
  | t => .error (.invalidTokenInUnaryOp t op.line op.column)

mutual

/-- `Parser::expression`.  The fuel bounds the recursion depth of the
expression grammar; each nested call strips one unit. -/
def Parser.expression : Nat → Parser → PRes Expr
  | 0, _ => .panic "recursion limit"
  | fuel + 1, p => Parser.assignment fuel p

/-- `Parser::assignment`: parse an equality; on a following `=`, the left
side must be a `Variable`, and the value is a right-recursive assignment. -/
def Parser.assignment : Nat → Parser → PRes Expr
  | 0, _ => .panic "recursion limit"
  | fuel + 1, p =>
    match Parser.equality fuel p with
    | .panic m => .panic m
    | .err e p1 => .err e p1
    | .ok expr p1 =>
      match p1.matches .equal with
      | .panic m => .panic m
      | .err e p2 => .err e p2
      | .ok Bool.false p2 => .ok expr p2
      | .ok Bool.true p2 =>
        match p2.previous with
        | .panic m => .panic m
        | .ok equals =>
          match Parser.assignment fuel p2 with
          | .panic m => .panic m
          | .err e p3 => .err e p3
          | .ok value p3 =>
            match expr with
            | .var sym => .ok (.assignment sym value) p3
            | _ => .err (.invalidAssignment equals.line equals.column) p3

/-- `Parser::equality`. -/
def Parser.equality : Nat → Parser → PRes Expr
  | 0, _ => .panic "recursion limit"
  | fuel + 1, p =>
    match Parser.comparison fuel p with
    | .panic m => .panic m
    | .err e p1 => .err e p1
    | .ok expr p1 => Parser.equalityLoop fuel expr p1

/-- The while loop of `Parser::equality`: fold the accumulated expression
as the left operand. -/
def Parser.equalityLoop : Nat → Expr → Parser → PRes Expr
  | 0, _, _ => .panic "recursion limit"
  | fuel + 1, expr, p =>
    match p.matchOneOf [.equalEqual, .bangEqual] with
    | .panic m => .panic m
    | .err e p1 => .err e p1
    | .ok Bool.false p1 => .ok expr p1
    | .ok Bool.true p1 =>
      match p1.previous with
      | .panic m => .panic m
      | .ok operator =>
        match Parser.comparison fuel p1 with
        | .panic m => .panic m
        | .err e p2 => .err e p2
        | .ok right p2 =>
          match opTokenToBinop operator with
          | .ok binop => Parser.equalityLoop fuel (.binary expr binop right) p2
          | .error e => .err e p2

/-- `Parser::comparison`. -/
def Parser.comparison : Nat → Parser → PRes Expr
  | 0, _ => .panic "recursion limit"
  | fuel + 1, p =>
    match Parser.term fuel p with
    | .panic m => .panic m
    | .err e p1 => .err e p1
    | .ok expr p1 => Parser.comparisonLoop fuel expr p1

/-- The while loop of `Parser::comparison`. -/
def Parser.comparisonLoop : Nat → Expr → Parser → PRes Expr
  | 0, _, _ => .panic "recursion limit"
  | fuel + 1, expr, p =>
    match p.matchOneOf [.less, .lessEqual, .greater, .greaterEqual] with
    | .panic m => .panic m
    | .err e p1 => .err e p1
    | .ok Bool.false p1 => .ok expr p1
    | .ok Bool.true p1 =>
      match p1.previous with
      | .panic m => .panic m
      | .ok operator =>
        match Parser.term fuel p1 with
        | .panic m => .panic m
        | .err e p2 => .err e p2
        | .ok right p2 =>
          match opTokenToBinop operator with
          | .ok binop => Parser.comparisonLoop fuel (.binary expr binop right) p2
          | .error e => .err e p2

/-- `Parser::term`. -/
def Parser.term : Nat → Parser → PRes Expr
  | 0, _ => .panic "recursion limit"
  | fuel + 1, p =>
    match Parser.factor fuel p with
    | .panic m => .panic m
    | .err e p1 => .err e p1
    | .ok expr p1 => Parser.termLoop fuel expr p1

/-- The while loop of `Parser::term`: fold the accumulated expression as
the left operand of each further `+`/`-`. -/
def Parser.termLoop : Nat → Expr → Parser → PRes Expr
  | 0, _, _ => .panic "recursion limit"
  | fuel + 1, expr, p =>
    match p.matchOneOf [.plus, .minus] with
    | .panic m => .panic m
    | .err e p1 => .err e p1
    | .ok Bool.false p1 => .ok expr p1
    | .ok Bool.true p1 =>
      match p1.previous with
      | .panic m => .panic m
      | .ok operator =>
        match Parser.factor fuel p1 with
        | .panic m => .panic m
        | .err e p2 => .err e p2
        | .ok right p2 =>
          match opTokenToBinop operator with
          | .ok binop => Parser.termLoop fuel (.binary expr binop right) p2
          | .error e => .err e p2

/-- `Parser::factor`. -/
def Parser.factor : Nat → Parser → PRes Expr
  | 0, _ => .panic "recursion limit"
  | fuel + 1, p =>
    match Parser.unary fuel p with
    | .panic m => .panic m
    | .err e p1 => .err e p1
    | .ok expr p1 => Parser.factorLoop fuel expr p1

/-- The while loop of `Parser::factor`: fold the accumulated expression as
the left operand of each further `*`/`/`. -/
def Parser.factorLoop : Nat → Expr → Parser → PRes Expr
  | 0, _, _ => .panic "recursion limit"
  | fuel + 1, expr, p =>
    match p.matchOneOf [.star, .slash] with
    | .panic m => .panic m
    | .err e p1 => .err e p1
    | .ok Bool.false p1 => .ok expr p1
    | .ok Bool.true p1 =>
      match p1.previous with
      | .panic m => .panic m
      | .ok operator =>
        match Parser.unary fuel p1 with
        | .panic m => .panic m
        | .err e p2 => .err e p2
        | .ok right p2 =>
          match opTokenToBinop operator with
          | .ok binop => Parser.factorLoop fuel (.binary expr binop right) p2
          | .error e => .err e p2

/-- `Parser::unary`: a prefix `!`/`-` applied to a right-recursive unary,
else a primary. -/
def Parser.unary : Nat → Parser → PRes Expr
  | 0, _ => .panic "recursion limit"
  | fuel + 1, p =>
    match p.matchOneOf [.minus, .bang] with
    | .panic m => .panic m
    | .err e p1 => .err e p1
    | .ok Bool.true p1 =>
      match p1.previous with
      | .panic m => .panic m
      | .ok operator =>
        match Parser.unary fuel p1 with
        | .panic m => .panic m
        | .err e p2 => .err e p2
        | .ok right p2 =>
          match opTokenToUniop operator with
          | .ok uniop => .ok (.unary uniop right) p2
          | .error e => .err e p2
    | .ok Bool.false p1 => Parser.primary fuel p1

/-- `Parser::primary`: literal keywords, number/string/identifier tokens
(whose literal payloads must be present, else an internal-error panic), or
a parenthesised expression; otherwise `ExpectedExpression`. -/
def Parser.primary : Nat → Parser → PRes Expr
  | 0, _ => .panic "recursion limit"
  | fuel + 1, p =>
    match p.matches .kwFalse with
    | .panic m => .panic m
    | .err e p1 => .err e p1
    | .ok Bool.true p1 => .ok (.literal Literal.false) p1
    | .ok Bool.false p1 =>
    match p1.matches .kwTrue with
    | .panic m => .panic m
    | .err e p2 => .err e p2
    | .ok Bool.true p2 => .ok (.literal Literal.true) p2
    | .ok Bool.false p2 =>
    match p2.matches .kwNull with
    | .panic m => .panic m
    | .err e p3 => .err e p3
    | .ok Bool.true p3 => .ok (.literal Literal.null) p3
    | .ok Bool.false p3 =>
    match p3.matches .number with
    | .panic m => .panic m
    | .err e p4 => .err e p4
    | .ok Bool.true p4 =>
      (match p4.previous with
      | .panic m => .panic m
      | .ok prev =>
        match prev.literal with
        | some (.num n) => .ok (.literal (.number (n : ℚ))) p4
        | some _ => .panic "internal error in parser: when parsing number, found other literal"
        | none => .panic "internal error in parser: when parsing number, found no literal")
    | .ok Bool.false p4 =>
    match p4.matches .string with
    | .panic m => .panic m
    | .err e p5 => .err e p5
    | .ok Bool.true p5 =>
      (match p5.previous with
      | .panic m => .panic m
      | .ok prev =>
        match prev.literal with
        | some (.str s) => .ok (.literal (.str s)) p5
        | some _ => .panic "parser internal error: when parsing string, found other literal"
        | none => .panic "parser internal error: when parsing string, found no literal")
    | .ok Bool.false p5 =>
    match p5.matches .identifier with
    | .panic m => .panic m
    | .err e p6 => .err e p6
    | .ok Bool.true p6 =>
      (match p6.previous with
      | .panic m => .panic m
      | .ok prev =>
        match prev.literal with
        | some (.identifier s) => .ok (.var ⟨s, prev.line, prev.column⟩) p6
        | some _ => .panic "parser internal error: when parsing identifier, found other literal"
        | none => .panic "parser internal error: when parsing identifier, found no literal")
    | .ok Bool.false p6 =>
    match p6.matches .leftParen with
    | .panic m => .panic m
    | .err e p7 => .err e p7
    | .ok Bool.true p7 =>
      (match Parser.expression fuel p7 with
      | .panic m => .panic m
      | .err e p8 => .err e p8
      | .ok expr p8 =>
        match p8.consume .rightParen "Expected \x27)\x27 after expression" with
        | .panic m => .panic m
        | .err e p9 => .err e p9
        | .ok _ p9 => .ok (.grouping expr) p9)
    | .ok Bool.false p7 =>
      match p7.peek with
      | .panic m => .panic m
      | .ok tok => .err (.expectedExpression tok.tokenType tok.line tok.column) p7

end

/-- `Parser::var_declaration`.  NOTE: the source drops the `Result` of the
final `consume(Semicolon, ...)` on the floor (no `?`), so a missing
semicolon neither stops the declaration nor surfaces an error. -/
def Parser.varDeclaration (fuel : Nat) (p : Parser) : PRes Stmt :=
  match p.consume .identifier "Expected variable name." with
  | .panic m => .panic m
  | .err e p1 => .err e p1
  | .ok name p1 =>
    match p1.matches .equal with
    | .panic m => .panic m
    | .err e p2 => .err e p2
    | .ok Bool.true p2 =>
      (match Parser.expression fuel p2 with
      | .panic m => .panic m
      | .err e p3 => .err e p3
      | .ok initE p3 =>
        match p3.consume .semicolon "Expected \x27;\x27 after variable declaration." with
        | .panic m => .panic m
        | .ok _ p4 => .ok (.varDeclaration ⟨String.mk name.lexeme, name.line, name.column⟩ (some initE)) p4
        | .err _ p4 => .ok (.varDeclaration ⟨String.mk name.lexeme, name.line, name.column⟩ (some initE)) p4)
    | .ok Bool.false p2 =>
      match p2.consume .semicolon "Expected \x27;\x27 after variable declaration." with
      | .panic m => .panic m
      | .ok _ p4 => .ok (.varDeclaration ⟨String.mk name.lexeme, name.line, name.column⟩ none) p4
      | .err _ p4 => .ok (.varDeclaration ⟨String.mk name.lexeme, name.line, name.column⟩ none) p4

/-- `Parser::print_statement`: the expression's `Result` is stored, the
semicolon is consumed with `?`, and only then is the stored result
`unwrap()`ed — so an expression error with a following semicolon panics. -/
def Parser.printStatement (fuel : Nat) (p : Parser) : PRes Stmt :=
  match Parser.expression fuel p with
  | .panic m => .panic m
  | .ok v p1 =>
    (match p1.consume .semicolon "Expected \x27;\x27" with
    | .panic m => .panic m
    | .err e p2 => .err e p2
    | .ok _ p2 => .ok (.print v) p2)
  | .err _ p1 =>
    match p1.consume .semicolon "Expected \x27;\x27" with
    | .panic m => .panic m
    | .err e2 p2 => .err e2 p2
    | .ok _ _ => .panic "called Result::unwrap on an Err value"

/-- `Parser::expression_statement`, with the same unwrap pattern as
`print_statement`. -/
def Parser.expressionStatement (fuel : Nat) (p : Parser) : PRes Stmt :=
  match Parser.expression fuel p with
  | .panic m => .panic m
  | .ok v p1 =>
    (match p1.consume .semicolon "Expected \x27;\x27" with
    | .panic m => .panic m
    | .err e p2 => .err e p2
    | .ok _ p2 => .ok (.expression v) p2)
  | .err _ p1 =>
    match p1.consume .semicolon "Expected \x27;\x27" with
    | .panic m => .panic m
    | .err e2 p2 => .err e2 p2
    | .ok _ _ => .panic "called Result::unwrap on an Err value"

/-- `Parser::statement`. -/
def Parser.statement (fuel : Nat) (p : Parser) : PRes Stmt :=
  match p.matches .kwPrint with
  | .panic m => .panic m
  | .err e p1 => .err e p1
  | .ok Bool.true p1 => Parser.printStatement fuel p1
  | .ok Bool.false p1 => Parser.expressionStatement fuel p1

/-- `Parser::declaration`. -/
def Parser.declaration (fuel : Nat) (p : Parser) : PRes Stmt :=
  match p.matches .kwVar with
  | .panic m => .panic m
  | .err e p1 => .err e p1
  | .ok Bool.true p1 => Parser.varDeclaration fuel p1
  | .ok Bool.false p1 => Parser.statement fuel p1

/-- The while loop of the `Parser::parse` method: parse declarations until
the cursor reaches Eof, short-circuiting on the first error. -/
def Parser.parseLoop : Nat → List Stmt → Parser → PRes (List Stmt)
  | 0, _, _ => .panic "recursion limit"
  | fuel + 1, acc, p =>
    match p.isAtEnd with
    | .panic m => .panic m
    | .ok Bool.true => .ok acc p
    | .ok Bool.false =>
      match Parser.declaration fuel p with
      | .panic m => .panic m
      | .err e p1 => .err e p1
      | .ok stmt p1 => Parser.parseLoop fuel (acc ++ [stmt]) p1

/-- Fuel that is ample for the recursion depth the token vector can
demand: the grammar strips at most eight fuel units per token chain. -/
def parserFuel (tokens : List Token) : Nat :=
  16 * tokens.length + 32

/-- parser.rs free function `parse`: run the parse method and, on success,
require the cursor to have reached Eof, else `UnexpectedToken`. -/
def parse (tokens : List Token) : PRes (List Stmt) :=
  let p : Parser := ⟨tokens, 0⟩
  match Parser.parseLoop (parserFuel tokens) [] p with
  | .panic m => .panic m
  | .err e p1 => .err e p1
  | .ok result p1 =>
    match p1.isAtEnd with
    | .panic m => .panic m
    | .ok Bool.false =>
      (match p1.tokens.get? p1.current with
      | some token => .err (.unexpectedToken token) p1
      | none => .panic "index out of bounds")
    | .ok Bool.true => .ok result p1

/-- main.rs `run`, after the file has been loaded (file loading is
peripheral glue outside the core): scan, report a scan error through
`error`/`report` — whose body is `panic!(...)` — leaving the token vector
empty for the later `parse` call, then parse, and interpret unless an
error was recorded.  `none` models the early `return` after a reported
parse error. -/
def runOnCode (code : String) : PanicOr (Option XRes) :=
  match scan code with
  | .panic m => .panic m
  | .error e =>
    .panic ("[line: " ++ toString e.line ++ ", column: " ++ toString e.column ++
      "] Error : " ++ e.what)
  | .ok tokens =>
    match parse tokens with
    | .panic m => .panic m
    | .err _ _ => .ok none
    | .ok stmts _ => .ok (some (interpret stmts))

/-! Claim theorems. -/

/-- Claim C1: for every pair of runtime values, `==` and `!=` both
evaluate to `Bool` of the same structural-equality helper, whose number
case is tolerance `|a - b| < machine epsilon`, whose string and boolean
cases are exact, which relates `Null` to `Null`, and which declares every
cross-type pair unequal. -/
theorem C1_equality_operators_use_structural_equals :
    (∀ (l r : Value) (line : Nat) (col : Int),
      interpretBinaryOp l ⟨.equalEqual, line, col⟩ r = .ok (.bool (Interpreter.equals l r)) ∧
      interpretBinaryOp l ⟨.notEqual, line, col⟩ r = .ok (.bool (Interpreter.equals l r)))
    ∧ (∀ a b : ℚ, Interpreter.equals (.number a) (.number b) = Bool.true ↔ |a - b| < f64Epsilon)
    ∧ (∀ s t : String, Interpreter.equals (.string s) (.string t) = Bool.true ↔ s = t)
    ∧ (∀ b c : Bool, Interpreter.equals (.bool b) (.bool c) = Bool.true ↔ b = c)
    ∧ Interpreter.equals .null .null = Bool.true
    ∧ (∀ (n : ℚ) (s : String), Interpreter.equals (.number n) (.string s) = Bool.false)
    ∧ (∀ (n : ℚ) (b : Bool), Interpreter.equals (.number n) (.bool b) = Bool.false)
    ∧ (∀ n : ℚ, Interpreter.equals (.number n) .null = Bool.false)
    ∧ (∀ (s : String) (n : ℚ), Interpreter.equals (.string s) (.number n) = Bool.false)
    ∧ (∀ (s : String) (b : Bool), Interpreter.equals (.string s) (.bool b) = Bool.false)
    ∧ (∀ s : String, Interpreter.equals (.string s) .null = Bool.false)
    ∧ (∀ (b : Bool) (n : ℚ), Interpreter.equals (.bool b) (.number n) = Bool.false)
    ∧ (∀ (b : Bool) (s : String), Interpreter.equals (.bool b) (.string s) = Bool.false)
    ∧ (∀ b : Bool, Interpreter.equals (.bool b) .null = Bool.false)
    ∧ (∀ n : ℚ, Interpreter.equals .null (.number n) = Bool.false)
    ∧ (∀ s : String, Interpreter.equals .null (.string s) = Bool.false)
    ∧ (∀ b : Bool, Interpreter.equals .null (.bool b) = Bool.false) := by
  refine ⟨?_, ?_, ?_, ?_, rfl, fun _ _ => rfl, fun _ _ => rfl, fun _ => rfl,
    fun _ _ => rfl, fun _ _ => rfl, fun _ => rfl, fun _ _ => rfl, fun _ _ => rfl,
    fun _ => rfl, fun _ => rfl, fun _ => rfl, fun _ => rfl⟩
  · intro l r line col
    cases l <;> cases r <;> exact ⟨rfl, rfl⟩
  · intro a b
    simp [Interpreter.equals]
  · intro s t
    simp [Interpreter.equals]
  · intro b c
    simp [Interpreter.equals]

/-- Claim C2 (code bug): evaluating `var x; print x;` — reading a
declared-but-never-assigned variable — panics in `Environment::get`'s
`unwrap()` of the stored `None` (a process abort) instead of returning an
UndefinedVariable runtime error; only the name-absent case returns the
error as a value. -/
theorem C2_unbound_variable_read_panics :
    interpret [Stmt.varDeclaration ⟨"x", 1, 4⟩ none, Stmt.print (Expr.var ⟨"x", 2, 6⟩)] =
      XRes.panic "called Option::unwrap on a None value"
    ∧ Interpreter.interpretExpr ⟨[]⟩ (Expr.var ⟨"y", 1, 0⟩) =
      IRes.err "Undefined variable y" ⟨[]⟩ :=
  ⟨rfl, rfl⟩

/-- Claim C3 (code bug): `+` on a String and a Number reaches the
interpreter's catch-all arm `Err(todo!())`, whose `todo!()` panics before
any error value is built; the Number+Number and String+String cases do
yield the sum and the concatenation. -/
theorem C3_mismatched_addition_panics :
    interpretBinaryOp (.string "a") ⟨.add, 1, 4⟩ (.number 1) = RRes.panic "not yet implemented"
    ∧ interpret [Stmt.expression
        (.binary (.literal (.str "a")) ⟨.add, 1, 4⟩ (.literal (.number 1)))] =
      XRes.panic "not yet implemented"
    ∧ (∀ (a b : ℚ) (line : Nat) (col : Int),
        interpretBinaryOp (.number a) ⟨.add, line, col⟩ (.number b) = .ok (.number (a + b)))
    ∧ (∀ (s t : String) (line : Nat) (col : Int),
        interpretBinaryOp (.string s) ⟨.add, line, col⟩ (.string t) = .ok (.string (s ++ t))) :=
  ⟨rfl, rfl, fun _ _ _ _ => rfl, fun _ _ _ _ => rfl⟩

/-- Claim C4 (code bug): scanning the unterminated string literal `"abc`
records the unterminated-string scan error but then panics on
`assert!(self.peek() == closing quote)` — a process abort, not a returned
ScanError value. -/
theorem C4_unterminated_string_panics :
    scan "\"abc" = ScanResult.panic "assertion failed" := rfl

/-- Claim C5 (code bug): because `Scanner::matches` returns `true` at
end-of-input, the one-character inputs `!`, `=`, `<`, `>` are classified
as the two-character kinds BangEqual, EqualEqual, LessEqual, GreaterEqual,
and the single character `/` enters the comment branch and panics indexing
past the end; the genuine two-character lexeme `!=` and the
single-character lexeme `(` do scan to the expected one-token-plus-Eof
sequences. -/
theorem C5_operator_lexeme_scan_results :
    scan "!" = ScanResult.ok [⟨.bangEqual, ['!'], none, 1, 0⟩, ⟨.eof, [], none, 1, 0⟩]
    ∧ scan "=" = ScanResult.ok [⟨.equalEqual, ['='], none, 1, 0⟩, ⟨.eof, [], none, 1, 0⟩]
    ∧ scan "<" = ScanResult.ok [⟨.lessEqual, ['<'], none, 1, 0⟩, ⟨.eof, [], none, 1, 0⟩]
    ∧ scan ">" = ScanResult.ok [⟨.greaterEqual, ['>'], none, 1, 0⟩, ⟨.eof, [], none, 1, 0⟩]
    ∧ scan "/" = ScanResult.panic "index out of bounds"
    ∧ scan "!=" = ScanResult.ok [⟨.bangEqual, ['!', '='], none, 1, 1⟩, ⟨.eof, [], none, 1, 1⟩]
    ∧ scan "(" = ScanResult.ok [⟨.leftParen, ['('], none, 1, 0⟩, ⟨.eof, [], none, 1, 0⟩] :=
  ⟨rfl, rfl, rfl, rfl, rfl, rfl, rfl⟩

/-- The token sequence of `var x = 1` with no terminating semicolon. -/
def toksVarNoSemi : List Token :=
  [⟨.kwVar, ['v', 'a', 'r'], none, 1, 2⟩,
   ⟨.identifier, ['x'], some (.identifier "x"), 1, 4⟩,
   ⟨.equal, ['='], none, 1, 6⟩,
   ⟨.number, ['1'], some (.num 1), 1, 8⟩,
   ⟨.eof, [], none, 1, 9⟩]

/-- Claim C6 (code bug): `Parser::var_declaration` drops the `Result` of
its `consume(Semicolon, ...)`, so parsing `var x = 1` with no semicolon
succeeds with the declaration instead of returning the TokenMismatch
syntax error. -/
theorem C6_var_declaration_missing_semicolon_accepted :
    parse toksVarNoSemi =
      PRes.ok [Stmt.varDeclaration ⟨"x", 1, 4⟩ (some (.literal (.number 1)))]
        ⟨toksVarNoSemi, 4⟩ := rfl

/-- Claim C7: division of two Numbers fails exactly when the right operand
is zero, with the error message carrying the operator token's line and
column; otherwise it yields the exact Number quotient (in this rational
model no infinity or NaN exists to be produced). -/
theorem C7_division_dispatch (a b : ℚ) (line : Nat) (col : Int) :
    interpretBinaryOp (.number a) ⟨.div, line, col⟩ (.number b) =
      if b = 0 then
        RRes.err ("[line: " ++ toString line ++ " Column: " ++ toString col ++
          "] Can\x27t divide by zero")
      else
        RRes.ok (.number (a / b)) := rfl

/-- The token sequence of the statement `1 + 2 * 3;`. -/
def toksPrec : List Token :=
  [⟨.number, ['1'], some (.num 1), 1, 0⟩,
   ⟨.plus, ['+'], none, 1, 2⟩,
   ⟨.number, ['2'], some (.num 2), 1, 4⟩,
   ⟨.star, ['*'], none, 1, 6⟩,
   ⟨.number, ['3'], some (.num 3), 1, 8⟩,
   ⟨.semicolon, [';'], none, 1, 9⟩,
   ⟨.eof, [], none, 1, 10⟩]

/-- The token sequence of the statement `1 - 2 - 3;`. -/
def toksAssoc : List Token :=
  [⟨.number, ['1'], some (.num 1), 1, 0⟩,
   ⟨.minus, ['-'], none, 1, 2⟩,
   ⟨.number, ['2'], some (.num 2), 1, 4⟩,
   ⟨.minus, ['-'], none, 1, 6⟩,
   ⟨.number, ['3'], some (.num 3), 1, 8⟩,
   ⟨.semicolon, [';'], none, 1, 9⟩,
   ⟨.eof, [], none, 1, 10⟩]

/-- Claim C8: `1 + 2 * 3` parses to Add whose right child is Mult(2, 3)
and evaluates to Number 7; `1 - 2 - 3` parses left-associatively to
(1 - 2) - 3 and evaluates to Number (-4), not Number 2. -/
theorem C8_precedence_and_left_associativity :
    parse toksPrec = PRes.ok
      [Stmt.expression
        (.binary (.literal (.number 1)) ⟨.add, 1, 2⟩
          (.binary (.literal (.number 2)) ⟨.mult, 1, 6⟩ (.literal (.number 3))))]
      ⟨toksPrec, 6⟩
    ∧ Interpreter.interpretExpr ⟨[]⟩
        (.binary (.literal (.number 1)) ⟨.add, 1, 2⟩
          (.binary (.literal (.number 2)) ⟨.mult, 1, 6⟩ (.literal (.number 3)))) =
      IRes.ok (.number 7) ⟨[]⟩
    ∧ parse toksAssoc = PRes.ok
      [Stmt.expression
        (.binary
          (.binary (.literal (.number 1)) ⟨.sub, 1, 2⟩ (.literal (.number 2)))
          ⟨.sub, 1, 6⟩ (.literal (.number 3)))]
      ⟨toksAssoc, 6⟩
    ∧ Interpreter.interpretExpr ⟨[]⟩
        (.binary
          (.binary (.literal (.number 1)) ⟨.sub, 1, 2⟩ (.literal (.number 2)))
          ⟨.sub, 1, 6⟩ (.literal (.number 3))) =
      IRes.ok (.number (-4)) ⟨[]⟩
    ∧ Interpreter.interpretExpr ⟨[]⟩
        (.binary
          (.binary (.literal (.number 1)) ⟨.sub, 1, 2⟩ (.literal (.number 2)))
          ⟨.sub, 1, 6⟩ (.literal (.number 3))) ≠
      IRes.ok (.number 2) ⟨[]⟩ := by
  refine ⟨by decide, ?_, by decide, ?_, ?_⟩
  · norm_num [Interpreter.interpretExpr, interpretBinaryOp, interpretLiteral]
  · norm_num [Interpreter.interpretExpr, interpretBinaryOp, interpretLiteral]
  · norm_num [Interpreter.interpretExpr, interpretBinaryOp, interpretLiteral]

/-- Claim C9 counterexample: on an input whose scan errors, the main entry
point does not actually pass the empty token vector to parse — it panics
inside `report` (the scan-error reporting path) first, with the report
message rather than the parser's index-out-of-bounds panic. -/
theorem C9_run_aborts_in_report_before_parse :
    runOnCode "@" = PanicOr.panic "[line: 1, column: 0] Error : Invalid character found: @"
    ∧ runOnCode "@" ≠ PanicOr.panic "index out of bounds" := by
  refine ⟨rfl, by decide⟩

/-- Claim C9 (amended): parse's cursor test and lookahead index the token
vector unconditionally, so on the empty token sequence (no Eof token) the
parser indexes past the end and panics instead of returning a Result; and
a scan error does occur on which main's scan-error branch leaves the token
vector empty for its later parse call. -/
theorem C9_parse_empty_tokens_panics :
    parse ([] : List Token) = PRes.panic "index out of bounds"
    ∧ scan "@" = ScanResult.error ⟨"Invalid character found: @", 1, 0⟩ :=
  ⟨rfl, rfl⟩

/-- Claim C10: `Assignment(sym, e)` fully evaluates `e` (with all of its
environment mutations) before the bound-name check; when the name is
unbound the failed assign adds no binding — the resulting environment is
exactly the one produced by evaluating `e`. -/
theorem C10_assignment_evaluates_rhs_before_binding_check
    (env : Environment) (sym : Symbol) (e : Expr) (v : Value) (env1 : Environment)
    (h : Interpreter.interpretExpr env e = IRes.ok v env1)
    (hfree : env1.containsKey sym.name = Bool.false) :
    Interpreter.interpretExpr env (.assignment sym e) =
      IRes.err "attempted to assign to an undefined variable" env1 := by
  simp only [Interpreter.interpretExpr, h, Environment.assign, hfree]
  simp

/-- Witness for C10 at a concrete input whose right side has a visible
side effect (a nested assignment to `y`) while the target `x` is unbound. -/
theorem C10_assignment_witness :
    Interpreter.interpretExpr ⟨[("y", some (.number 1))]⟩
      (.assignment ⟨"y", 1, 4⟩ (.literal (.number 2))) =
      IRes.ok (.number 2) ⟨[("y", some (.number 2))]⟩
    ∧ Environment.containsKey ⟨[("y", some (.number 2))]⟩ "x" = Bool.false
    ∧ Interpreter.interpretExpr ⟨[("y", some (.number 1))]⟩
        (.assignment ⟨"x", 1, 0⟩ (.assignment ⟨"y", 1, 4⟩ (.literal (.number 2)))) =
      IRes.err "attempted to assign to an undefined variable" ⟨[("y", some (.number 2))]⟩ :=
  ⟨by decide, by decide,
    C10_assignment_evaluates_rhs_before_binding_check
      ⟨[("y", some (.number 1))]⟩ ⟨"x", 1, 0⟩
      (.assignment ⟨"y", 1, 4⟩ (.literal (.number 2)))
      (.number 2) ⟨[("y", some (.number 2))]⟩ (by decide) (by decide)⟩

end Apprentice
